import Mathlib

/-!
Shallow embedding of the core window-tiling logic of `src/xlap.py` (the
`Layouts` catalog, the transition tables, and the `XlapCore` methods
`get_window_position`, `get_display_for_window`, `apply_layout` and
`modify_layout`), together with theorems settling the specification claims.

Modelling notes, justified against the source:
* Python strings are Lean `String`s; the four direction strings `"left"`,
  `"right"`, `"up"`, `"down"` are the closed inductive type `Direction`
  (these are the only direction values ever passed, from the hotkey table
  and the menu actions).
* Python `dict`s built from literal tables (`LAYOUT_TRANSITIONS`,
  `LAYOUT_GEOMETRY`) are association lists queried with `List.lookup`,
  which returns the first (unique) binding, exactly like `dict.get`.
* The mutable `self._window_state` dict is an association list to which
  `stateSet` prepends a binding; `stateGet` reads the most recent binding,
  matching Python assignment/`get` semantics.
* The geometry fractions in `LAYOUT_GEOMETRY` are the Python floats
  `0.0, 0.5, 1.0, 1/3, 2/3`; they are embedded as exact rational pairs
  `num/den`. `int(n * f)` in Python truncates the product toward zero;
  for these five fractions and any |n| below 2^45 the double-precision
  product rounds to a value whose truncation equals the truncation of the
  exact rational product (for `n` a multiple of 3, `n * float(1/3)` is
  within half an ulp of the exact integer `n/3` and rounds to it; otherwise
  the exact product is at distance 1/3 from the nearest integer, far beyond
  the rounding error), so `mulTrunc` below computes exactly what the code
  computes on all realistic pixel dimensions.
* External effects (xdotool/xrandr) are an `Env` record supplying the query
  results, and the issued geometry commands are returned as a `List ActCall`
  trace, in order.
-/

namespace Xlap

/-- The four direction strings accepted by `modify_layout`. -/
inductive Direction
  | left
  | right
  | up
  | down
deriving DecidableEq, Fintype, Repr

namespace Layouts

def FULL_SCREEN : String := "Full Screen"

def MAXIMIZED : String := "Maximized"

def ALMOST_MAXIMIZED : String := "Almost Maximized"

def COL_50_LEFT : String := "50% Left"

def COL_50_RIGHT : String := "50% Right"

def COL_66_LEFT : String := "66% Left"

def COL_66_RIGHT : String := "66% Right"

def COL_33_LEFT : String := "33% Left"

def COL_33_CENTER : String := "33% Center"

def COL_33_RIGHT : String := "33% Right"

def ROW_50_TOP : String := "50% Top"

def ROW_50_BOTTOM : String := "50% Bottom"

def ROW_66_TOP : String := "66% Top"

def ROW_66_BOTTOM : String := "66% Bottom"

def ROW_33_TOP : String := "33% Top"

def ROW_33_CENTER : String := "33% Middle"

def ROW_33_BOTTOM : String := "33% Bottom"

def CELL_50_LEFT_TOP : String := "50% Top Left"

def CELL_50_LEFT_BOTTOM : String := "50% Bottom Left"

def CELL_50_RIGHT_TOP : String := "50% Top Right"

def CELL_50_RIGHT_BOTTOM : String := "50% Bottom Right"

def CELL_33_LEFT_TOP : String := "33% Top Left"

def CELL_33_LEFT_CENTER : String := "33% Middle Left"

def CELL_33_LEFT_BOTTOM : String := "33% Bottom Left"

def CELL_33_CENTER_TOP : String := "33% Top Center"

def CELL_33_CENTER_CENTER : String := "33% Middle Center"

def CELL_33_CENTER_BOTTOM : String := "33% Bottom Center"

def CELL_33_RIGHT_TOP : String := "33% Top Right"

def CELL_33_RIGHT_CENTER : String := "33% Middle Right"

def CELL_33_RIGHT_BOTTOM : String := "33% Bottom Right"

end Layouts

/-- An exact rational `num/den`, standing for one of the geometry-factor
floats of `LAYOUT_GEOMETRY` (see the modelling notes above). -/
structure Frac where
  num : Nat
  den : Nat
deriving DecidableEq, Repr

/-- The factor tuple `(x_factor, y_factor, width_factor, height_factor)`. -/
structure Geometry where
  x : Frac
  y : Frac
  w : Frac
  h : Frac
deriving DecidableEq, Repr

def f0 : Frac := ⟨0, 1⟩

def fHalf : Frac := ⟨1, 2⟩

def fOne : Frac := ⟨1, 1⟩

def fThird : Frac := ⟨1, 3⟩

def fTwoThirds : Frac := ⟨2, 3⟩

/-- `LAYOUT_GEOMETRY` dict of `src/xlap.py` lines 193-222. -/
def LAYOUT_GEOMETRY : List (String × Geometry) := [
  (Layouts.ALMOST_MAXIMIZED, ⟨f0, f0, fOne, fOne⟩),
  (Layouts.COL_50_LEFT, ⟨f0, f0, fHalf, fOne⟩),
  (Layouts.COL_50_RIGHT, ⟨fHalf, f0, fHalf, fOne⟩),
  (Layouts.COL_66_LEFT, ⟨f0, f0, fTwoThirds, fOne⟩),
  (Layouts.COL_66_RIGHT, ⟨fThird, f0, fTwoThirds, fOne⟩),
  (Layouts.COL_33_LEFT, ⟨f0, f0, fThird, fOne⟩),
  (Layouts.COL_33_CENTER, ⟨fThird, f0, fThird, fOne⟩),
  (Layouts.COL_33_RIGHT, ⟨fTwoThirds, f0, fThird, fOne⟩),
  (Layouts.ROW_50_TOP, ⟨f0, f0, fOne, fHalf⟩),
  (Layouts.ROW_50_BOTTOM, ⟨f0, fHalf, fOne, fHalf⟩),
  (Layouts.ROW_66_TOP, ⟨f0, f0, fOne, fTwoThirds⟩),
  (Layouts.ROW_66_BOTTOM, ⟨f0, fThird, fOne, fTwoThirds⟩),
  (Layouts.ROW_33_TOP, ⟨f0, f0, fOne, fThird⟩),
  (Layouts.ROW_33_CENTER, ⟨f0, fThird, fOne, fThird⟩),
  (Layouts.ROW_33_BOTTOM, ⟨f0, fTwoThirds, fOne, fThird⟩),
  (Layouts.CELL_50_LEFT_TOP, ⟨f0, f0, fHalf, fHalf⟩),
  (Layouts.CELL_50_LEFT_BOTTOM, ⟨f0, fHalf, fHalf, fHalf⟩),
  (Layouts.CELL_50_RIGHT_TOP, ⟨fHalf, f0, fHalf, fHalf⟩),
  (Layouts.CELL_50_RIGHT_BOTTOM, ⟨fHalf, fHalf, fHalf, fHalf⟩),
  (Layouts.CELL_33_LEFT_TOP, ⟨f0, f0, fThird, fThird⟩),
  (Layouts.CELL_33_LEFT_CENTER, ⟨f0, fThird, fThird, fThird⟩),
  (Layouts.CELL_33_LEFT_BOTTOM, ⟨f0, fTwoThirds, fThird, fThird⟩),
  (Layouts.CELL_33_CENTER_TOP, ⟨fThird, f0, fThird, fThird⟩),
  (Layouts.CELL_33_CENTER_CENTER, ⟨fThird, fThird, fThird, fThird⟩),
  (Layouts.CELL_33_CENTER_BOTTOM, ⟨fThird, fTwoThirds, fThird, fThird⟩),
  (Layouts.CELL_33_RIGHT_TOP, ⟨fTwoThirds, f0, fThird, fThird⟩),
  (Layouts.CELL_33_RIGHT_CENTER, ⟨fTwoThirds, fThird, fThird, fThird⟩),
  (Layouts.CELL_33_RIGHT_BOTTOM, ⟨fTwoThirds, fTwoThirds, fThird, fThird⟩)]

/-- `LAYOUT_GEOMETRY.get(layout)` of line 397. -/
def geometryOf (layout : String) : Option Geometry :=
  LAYOUT_GEOMETRY.lookup layout

/-- `LAYOUT_SEQUENCE` of lines 225-256, the canonical layout enumeration. -/
def LAYOUT_SEQUENCE : List String := [
  Layouts.FULL_SCREEN,
  Layouts.MAXIMIZED,
  Layouts.ALMOST_MAXIMIZED,
  Layouts.COL_50_LEFT,
  Layouts.COL_50_RIGHT,
  Layouts.COL_66_LEFT,
  Layouts.COL_66_RIGHT,
  Layouts.COL_33_LEFT,
  Layouts.COL_33_CENTER,
  Layouts.COL_33_RIGHT,
  Layouts.ROW_50_TOP,
  Layouts.ROW_50_BOTTOM,
  Layouts.ROW_66_TOP,
  Layouts.ROW_66_BOTTOM,
  Layouts.ROW_33_TOP,
  Layouts.ROW_33_CENTER,
  Layouts.ROW_33_BOTTOM,
  Layouts.CELL_50_LEFT_TOP,
  Layouts.CELL_50_LEFT_BOTTOM,
  Layouts.CELL_50_RIGHT_TOP,
  Layouts.CELL_50_RIGHT_BOTTOM,
  Layouts.CELL_33_LEFT_TOP,
  Layouts.CELL_33_LEFT_CENTER,
  Layouts.CELL_33_LEFT_BOTTOM,
  Layouts.CELL_33_CENTER_TOP,
  Layouts.CELL_33_CENTER_CENTER,
  Layouts.CELL_33_CENTER_BOTTOM,
  Layouts.CELL_33_RIGHT_TOP,
  Layouts.CELL_33_RIGHT_CENTER,
  Layouts.CELL_33_RIGHT_BOTTOM]

/-- `LAYOUT_TRANSITIONS` dict of lines 259-269: the eight explicit
refinement rules from a 50% split to a corner cell. -/
def LAYOUT_TRANSITIONS : List ((String × Direction) × String) := [
  ((Layouts.COL_50_LEFT, Direction.up), Layouts.CELL_50_LEFT_TOP),
  ((Layouts.COL_50_LEFT, Direction.down), Layouts.CELL_50_LEFT_BOTTOM),
  ((Layouts.COL_50_RIGHT, Direction.up), Layouts.CELL_50_RIGHT_TOP),
  ((Layouts.COL_50_RIGHT, Direction.down), Layouts.CELL_50_RIGHT_BOTTOM),
  ((Layouts.ROW_50_TOP, Direction.left), Layouts.CELL_50_LEFT_TOP),
  ((Layouts.ROW_50_TOP, Direction.right), Layouts.CELL_50_RIGHT_TOP),
  ((Layouts.ROW_50_BOTTOM, Direction.left), Layouts.CELL_50_LEFT_BOTTOM),
  ((Layouts.ROW_50_BOTTOM, Direction.right), Layouts.CELL_50_RIGHT_BOTTOM)]

/-- `LAYOUT_TRANSITIONS.get(transition_key)` of line 445. -/
def transitionsGet (key : String × Direction) : Option String :=
  LAYOUT_TRANSITIONS.lookup key

/-- `DEFAULT_TRANSITIONS` dict of lines 272-277; total over the four
directions. -/
def DEFAULT_TRANSITIONS : Direction → String
  | Direction.left => Layouts.COL_50_LEFT
  | Direction.right => Layouts.COL_50_RIGHT
  | Direction.up => Layouts.ROW_50_TOP
  | Direction.down => Layouts.ROW_50_BOTTOM

/-- Lines 443-449 of `modify_layout`: the explicit rule for
`(current_layout, direction)` if present, else the per-direction default.
(The dict values are non-empty strings, so Python's `if not new_layout`
test is exactly the `None` check.) -/
def resolve (current_layout : String) (d : Direction) : String :=
  match transitionsGet (current_layout, d) with
  | some new_layout => new_layout
  | none => DEFAULT_TRANSITIONS d

/-- One display record as built by `get_connected_displays` (lines 329-341). -/
structure Display where
  x_start : Int
  x_end : Int
  y_start : Int
  y_end : Int
  offset_left : Int
  offset_top : Int
  width : Int
  height : Int
deriving DecidableEq, Repr

/-- Lines 329-341: the record built from one parsed xrandr mode line
`WxH+OX+OY` (the four numbers are digit groups, hence non-negative). -/
def mkDisplay (w h ox oy : Nat) : Display :=
  ⟨ox, ox + w, oy, oy + h, ox, oy, w, h⟩

/-- The `self._window_state` dict (line 285): window id to layout index. -/
abbrev WState := List (String × Nat)

/-- `self._window_state.get(window_id)`. -/
def stateGet (st : WState) (window_id : String) : Option Nat :=
  st.lookup window_id

/-- `self._window_state[window_id] = i`: the new binding shadows older ones. -/
def stateSet (st : WState) (window_id : String) (i : Nat) : WState :=
  (window_id, i) :: st

/-- Lines 377-384: the canonical index recorded for a layout -
`LAYOUT_SEQUENCE.index(layout)` when the name is known, else `0`. -/
def canonicalIndex (layout : String) : Nat :=
  if layout ∈ LAYOUT_SEQUENCE then LAYOUT_SEQUENCE.indexOf layout else 0

/-- Results of the external `xdotool`/`xrandr` queries the core makes.
`window_position` holds the parsed `Position: x,y` digits (so the raw
coordinates are the regex's non-negative captures, here general `Int` to
model the subsequent clamp faithfully); `active_window` is
`get_active_window_id`, whose `or None` maps the empty string to `none`. -/
structure Env where
  active_window : Option String
  window_position : String → Option (Int × Int)
  displays : List Display

/-- `get_window_position` (lines 312-319): clamps each coordinate to 0. -/
def get_window_position (env : Env) (window_id : String) : Option (Int × Int) :=
  (env.window_position window_id).map fun p => (max 0 p.1, max 0 p.2)

/-- The half-open containment test of lines 354-357. -/
def containsPoint (d : Display) (left top : Int) : Bool :=
  decide (d.x_start ≤ left ∧ left < d.x_end ∧ d.y_start ≤ top ∧ top < d.y_end)

/-- The lookup loop of lines 353-360: first display, in enumeration order,
containing the point. -/
def displayContaining (displays : List Display) (left top : Int) : Option Display :=
  displays.find? fun d => containsPoint d left top

/-- `get_display_for_window` (lines 346-363): `None` when the position is
unavailable; otherwise the first containing display, falling back to the
first display of the list, or `None` when the list is empty. -/
def get_display_for_window (env : Env) (window_id : String) : Option Display :=
  match get_window_position env window_id with
  | none => none
  | some (left, top) =>
    match displayContaining env.displays left top with
    | some display => some display
    | none => env.displays.head?

/-- One geometry-affecting xdotool invocation issued by `apply_layout`. -/
inductive ActCall
  | windowstate (state_action state_prop window_id : String)
  | windowsize (window_id : String) (width height : Int)
  | windowmove (window_id : String) (left top : Int)
deriving DecidableEq, Repr

/-- How an `apply_layout` call returned (which `return` path it took). -/
inductive ApplyOutcome
  | applied
  | noWindowId
  | displayNotFound
  | noGeometry
deriving DecidableEq, Repr

/-- State, issued geometry commands and exit path of one `apply_layout`. -/
structure ApplyResult where
  state : WState
  calls : List ActCall
  outcome : ApplyOutcome
deriving DecidableEq, Repr

/-- The four margin settings of `Config` (lines 77-80), as read from JSON. -/
structure Config where
  window_margin_top : Int
  window_margin_left : Int
  screen_margin_bottom : Int
  screen_margin_right : Int
deriving DecidableEq, Repr

/-- Python `int(n * f)` for a geometry factor `f = num/den`: truncation of
the product toward zero (see the modelling notes on float exactness). -/
def mulTrunc (n : Int) (f : Frac) : Int :=
  (n * f.num).tdiv f.den

/-- Absolute pixel bounds passed to `windowsize`/`windowmove`. -/
structure Bounds where
  left : Int
  top : Int
  width : Int
  height : Int
deriving DecidableEq, Repr

/-- Lines 403-412: the bounds computed by `apply_layout` for a fractional
layout on a display. -/
def codeBounds (cfg : Config) (display : Display) (geom : Geometry) : Bounds :=
  let screen_w := display.width - cfg.screen_margin_right
  let screen_h := display.height - cfg.screen_margin_bottom
  { left := display.offset_left + mulTrunc screen_w geom.x + cfg.window_margin_left
    top := display.offset_top + mulTrunc screen_h geom.y + cfg.window_margin_top
    width := mulTrunc screen_w geom.w - cfg.window_margin_left
    height := mulTrunc screen_h geom.h - cfg.window_margin_top }

/-- Modelled from the spec: floor of the product, `⌊n * num/den⌋`, as the
spec's bounds formulas state it ("floor"), for comparison with `mulTrunc`. -/
def mulFloor (n : Int) (f : Frac) : Int :=
  (n * f.num).fdiv f.den

/-- Modelled from the spec: the bounds formulas of spec section 4.3
verbatim, with mathematical floor, to be compared with `codeBounds`. -/
def specBounds (cfg : Config) (display : Display) (geom : Geometry) : Bounds :=
  let usableWidth := display.width - cfg.screen_margin_right
  let usableHeight := display.height - cfg.screen_margin_bottom
  { left := display.offset_left + mulFloor usableWidth geom.x + cfg.window_margin_left
    top := display.offset_top + mulFloor usableHeight geom.y + cfg.window_margin_top
    width := mulFloor usableWidth geom.w - cfg.window_margin_left
    height := mulFloor usableHeight geom.h - cfg.window_margin_top }

/-- `apply_layout` (lines 370-423): records the canonical index (except for
an empty window id, line 372's falsy test), then either toggles window
state for the special layouts or computes and issues the geometry calls;
returns early with no geometry calls when no display or no geometry entry
is found. -/
def apply_layout (cfg : Config) (env : Env) (layout window_id : String) (st : WState) : ApplyResult :=
  if window_id = "" then ⟨st, [], ApplyOutcome.noWindowId⟩
  else
    let st' := stateSet st window_id (canonicalIndex layout)
    if layout = Layouts.FULL_SCREEN then
      ⟨st', [ActCall.windowstate "--add" "fullscreen" window_id], ApplyOutcome.applied⟩
    else if layout = Layouts.MAXIMIZED then
      ⟨st', [ActCall.windowstate "--remove" "fullscreen" window_id,
             ActCall.windowstate "--add" "maximized_vert,maximized_horz" window_id],
       ApplyOutcome.applied⟩
    else
      match get_display_for_window env window_id with
      | none => ⟨st', [], ApplyOutcome.displayNotFound⟩
      | some display =>
        match geometryOf layout with
        | none => ⟨st', [], ApplyOutcome.noGeometry⟩
        | some geom =>
          let b := codeBounds cfg display geom
          ⟨st', [ActCall.windowstate "--remove" "fullscreen,maximized_vert,maximized_horz" window_id,
                 ActCall.windowsize window_id b.width b.height,
                 ActCall.windowmove window_id b.left b.top],
           ApplyOutcome.applied⟩

/-- Lines 433-436: the layout name recorded for a window, defaulting to
`Maximized` when no state is recorded. Recorded indices always come from
`canonicalIndex` or this default, so they are in range and `List.getD`
never takes its fallback on reachable states. -/
def currentLayoutName (st : WState) (window_id : String) : String :=
  LAYOUT_SEQUENCE.getD
    ((stateGet st window_id).getD (LAYOUT_SEQUENCE.indexOf Layouts.MAXIMIZED)) ""

/-- Lines 433-449: the layout `modify_layout` resolves for a window. -/
def resolveWindow (st : WState) (window_id : String) (d : Direction) : String :=
  resolve (currentLayoutName st window_id) d

/-- `modify_layout` (lines 425-456): no-op without an active window, else
apply the resolved layout to the active window. -/
def modify_layout (cfg : Config) (env : Env) (d : Direction) (st : WState) : ApplyResult :=
  match env.active_window with
  | none => ⟨st, [], ApplyOutcome.noWindowId⟩
  | some active_window =>
    apply_layout cfg env (resolveWindow st active_window d) active_window st

/-- The eight layouts reachable by directional snapping: the four default
halves and the four corner cells. -/
def eightSet : List String := [
  Layouts.COL_50_LEFT,
  Layouts.COL_50_RIGHT,
  Layouts.ROW_50_TOP,
  Layouts.ROW_50_BOTTOM,
  Layouts.CELL_50_LEFT_TOP,
  Layouts.CELL_50_RIGHT_TOP,
  Layouts.CELL_50_LEFT_BOTTOM,
  Layouts.CELL_50_RIGHT_BOTTOM]

/-- Default margins (Config lines 77-80). -/
def cfgDefault : Config := ⟨30, 30, 30, 30⟩

/-- A margin configuration whose screen-right margin exceeds the display
width, producing a negative usable width. -/
def cfgNegW : Config := ⟨0, 0, 0, 4⟩

def displayMain : Display := mkDisplay 1920 1080 0 0

def displayRightOf : Display := mkDisplay 1920 1080 1920 0

def displaySmall : Display := mkDisplay 1 1080 0 0

def geom33Center : Geometry := ⟨fThird, f0, fThird, fOne⟩

def geom50Left : Geometry := ⟨f0, f0, fHalf, fOne⟩

/-- An environment with one display and a determinable window position. -/
def envScenario : Env := ⟨some "w1", fun _ => some (100, 100), [displayMain]⟩

/-- An environment with the 1-pixel-wide display and position (0,0). -/
def envSmall : Env := ⟨some "w1", fun _ => some (0, 0), [displaySmall]⟩

/-- An environment where the window position cannot be determined but one
display exists. -/
def envNoPos : Env := ⟨some "w1", fun _ => none, [displayMain]⟩

/-- An environment reporting zero displays. -/
def envNoDisplays : Env := ⟨some "w1", fun _ => none, []⟩

theorem stateGet_stateSet (st : WState) (w : String) (i : Nat) :
    stateGet (stateSet st w i) w = some i := by
  simp [stateGet, stateSet, List.lookup]

theorem lookup_mem_values {α β : Type} [BEq α] (l : List (α × β)) (k : α) (b : β)
    (h : l.lookup k = some b) : b ∈ l.map Prod.snd := by
  induction l with
  | nil => simp [List.lookup] at h
  | cons e l ih =>
    obtain ⟨a, c⟩ := e
    rw [List.lookup_cons] at h
    cases hka : k == a with
    | true => rw [hka] at h; simp at h; simp [h]
    | false => rw [hka] at h; simp only [List.map, List.mem_cons]; exact Or.inr (ih h)

theorem geometryOf_ne_special {layout : String} {geom : Geometry}
    (h : geometryOf layout = some geom) :
    layout ≠ Layouts.FULL_SCREEN ∧ layout ≠ Layouts.MAXIMIZED := by
  constructor
  · intro e
    have h0 : geometryOf Layouts.FULL_SCREEN = none := by decide
    rw [e, h0] at h
    cases h
  · intro e
    have h0 : geometryOf Layouts.MAXIMIZED = none := by decide
    rw [e, h0] at h
    cases h

theorem display_containing_ne_nil {ds : List Display} {l t : Int} {d : Display}
    (h : displayContaining ds l t = some d) : ds ≠ [] := by
  intro e
  rw [e] at h
  simp [displayContaining] at h

theorem display_for_window_none_of_nil (env : Env) (w : String)
    (hd : env.displays = []) : get_display_for_window env w = none := by
  unfold get_display_for_window
  cases hp : get_window_position env w with
  | none => rfl
  | some p =>
    obtain ⟨l, t⟩ := p
    simp [displayContaining, hd]

theorem apply_layout_state (cfg : Config) (env : Env) (layout window_id : String)
    (st : WState) (hw : window_id ≠ "") :
    (apply_layout cfg env layout window_id st).state =
      stateSet st window_id (canonicalIndex layout) := by
  simp only [apply_layout, if_neg hw]
  repeat first | rfl | split

theorem apply_layout_stateGet (cfg : Config) (env : Env) (layout window_id : String)
    (st : WState) (hw : window_id ≠ "") :
    stateGet (apply_layout cfg env layout window_id st).state window_id =
      some (canonicalIndex layout) := by
  rw [apply_layout_state cfg env layout window_id st hw]
  exact stateGet_stateSet st window_id (canonicalIndex layout)

theorem default_mem_eightSet (d : Direction) : DEFAULT_TRANSITIONS d ∈ eightSet := by
  cases d <;> decide

theorem resolve_mem_eightSet (L : String) (d : Direction) : resolve L d ∈ eightSet := by
  unfold resolve
  cases h : transitionsGet (L, d) with
  | none => exact default_mem_eightSet d
  | some t =>
    unfold transitionsGet at h
    have ht := lookup_mem_values LAYOUT_TRANSITIONS (L, d) t h
    have hall : ∀ x ∈ LAYOUT_TRANSITIONS.map Prod.snd, x ∈ eightSet := by decide
    exact hall t ht

theorem eightSet_canonical :
    ∀ L ∈ eightSet, LAYOUT_SEQUENCE.getD (canonicalIndex L) "" = L := by decide

theorem mulTrunc_eq_mulFloor (n : Int) (f : Frac) (h : 0 ≤ n) :
    mulTrunc n f = mulFloor n f := by
  unfold mulTrunc mulFloor
  rw [Int.tdiv_eq_ediv (mul_nonneg h (Int.natCast_nonneg _)) (Int.natCast_nonneg _),
    Int.fdiv_eq_ediv _ (Int.natCast_nonneg _)]

theorem codeBounds_eq_specBounds (cfg : Config) (display : Display) (geom : Geometry)
    (hW : 0 ≤ display.width - cfg.screen_margin_right)
    (hH : 0 ≤ display.height - cfg.screen_margin_bottom) :
    codeBounds cfg display geom = specBounds cfg display geom := by
  simp only [codeBounds, specBounds, mulTrunc_eq_mulFloor _ _ hW,
    mulTrunc_eq_mulFloor _ _ hH]

/-- C1: for every layout name L (catalog, special or unknown) and every
direction d with no explicit rule keyed (L, d), `resolve` returns exactly
`DEFAULT_TRANSITIONS d`; being a total function into `String`, resolution
always produces a layout and never errors. -/
theorem C1_default_fallback (L : String) (d : Direction)
    (h : transitionsGet (L, d) = none) :
    resolve L d = DEFAULT_TRANSITIONS d := by
  unfold resolve
  rw [h]

theorem C1_default_fallback_witness :
    transitionsGet (Layouts.FULL_SCREEN, Direction.left) = none ∧
    resolve Layouts.FULL_SCREEN Direction.left = DEFAULT_TRANSITIONS Direction.left :=
  ⟨by decide, C1_default_fallback Layouts.FULL_SCREEN Direction.left (by decide)⟩

/-- C2: the explicit transition table has exactly the eight listed keys,
and whenever a window's recorded layout is the source of an explicit rule,
resolution returns that rule's target, for every state and window. -/
theorem C2_explicit_rules :
    LAYOUT_TRANSITIONS.map Prod.fst = [
      (Layouts.COL_50_LEFT, Direction.up),
      (Layouts.COL_50_LEFT, Direction.down),
      (Layouts.COL_50_RIGHT, Direction.up),
      (Layouts.COL_50_RIGHT, Direction.down),
      (Layouts.ROW_50_TOP, Direction.left),
      (Layouts.ROW_50_TOP, Direction.right),
      (Layouts.ROW_50_BOTTOM, Direction.left),
      (Layouts.ROW_50_BOTTOM, Direction.right)] ∧
    ∀ (st : WState) (w src tgt : String) (d : Direction),
      transitionsGet (src, d) = some tgt →
      currentLayoutName st w = src →
      resolveWindow st w d = tgt := by
  refine ⟨by decide, ?_⟩
  intro st w src tgt d h1 h2
  unfold resolveWindow
  rw [h2]
  unfold resolve
  rw [h1]

theorem C2_explicit_rules_witness :
    transitionsGet (Layouts.COL_50_LEFT, Direction.up) = some Layouts.CELL_50_LEFT_TOP ∧
    currentLayoutName [("w1", 3)] "w1" = Layouts.COL_50_LEFT ∧
    resolveWindow [("w1", 3)] "w1" Direction.up = Layouts.CELL_50_LEFT_TOP :=
  ⟨by decide, by decide,
    C2_explicit_rules.2 [("w1", 3)] "w1" Layouts.COL_50_LEFT Layouts.CELL_50_LEFT_TOP
      Direction.up (by decide) (by decide)⟩

/-- C3 counterexample: on a 1-pixel-wide display with screen-right margin 4
(usable width -3) and layout "50% Left", the code issues a windowsize call
with width `int(-3 * 0.5) = -1` (truncation toward zero), whereas the
claim's formula `floor(usableWidth * w) - windowMarginLeft` gives
`floor(-1.5) = -2`: the bounds are not the floor formula. -/
theorem C3_counterexample :
    (apply_layout cfgNegW envSmall Layouts.COL_50_LEFT "w1" []).calls =
      [ActCall.windowstate "--remove" "fullscreen,maximized_vert,maximized_horz" "w1",
       ActCall.windowsize "w1" (-1) 1080,
       ActCall.windowmove "w1" 0 0] ∧
    geometryOf Layouts.COL_50_LEFT = some geom50Left ∧
    (specBounds cfgNegW displaySmall geom50Left).width = -2 ∧
    ((-1 : Int) ≠ -2) :=
  ⟨by decide, by decide, by decide, by decide⟩

/-- C3 (amended): the code rounds `usable * fraction` by truncation toward
zero (Python `int`), not floor; whenever the usable width and height are
non-negative the two agree, and the geometry calls issued for a fractional
layout then carry exactly the spec's floor-formula bounds. -/
theorem C3_bounds_floor_form (cfg : Config) (env : Env) (layout window_id : String)
    (st : WState) (geom : Geometry) (display : Display)
    (hw : window_id ≠ "")
    (hg : geometryOf layout = some geom)
    (hd : get_display_for_window env window_id = some display)
    (hW : 0 ≤ display.width - cfg.screen_margin_right)
    (hH : 0 ≤ display.height - cfg.screen_margin_bottom) :
    (apply_layout cfg env layout window_id st).calls =
      [ActCall.windowstate "--remove" "fullscreen,maximized_vert,maximized_horz" window_id,
       ActCall.windowsize window_id (specBounds cfg display geom).width
         (specBounds cfg display geom).height,
       ActCall.windowmove window_id (specBounds cfg display geom).left
         (specBounds cfg display geom).top] := by
  obtain ⟨hFS, hMAX⟩ := geometryOf_ne_special hg
  simp only [apply_layout, if_neg hw, if_neg hFS, if_neg hMAX, hd, hg]
  rw [codeBounds_eq_specBounds cfg display geom hW hH]

theorem C3_bounds_floor_form_witness :
    ("w1" : String) ≠ "" ∧
    geometryOf Layouts.COL_33_CENTER = some geom33Center ∧
    get_display_for_window envScenario "w1" = some displayMain ∧
    0 ≤ displayMain.width - cfgDefault.screen_margin_right ∧
    0 ≤ displayMain.height - cfgDefault.screen_margin_bottom ∧
    (apply_layout cfgDefault envScenario Layouts.COL_33_CENTER "w1" []).calls =
      [ActCall.windowstate "--remove" "fullscreen,maximized_vert,maximized_horz" "w1",
       ActCall.windowsize "w1" (specBounds cfgDefault displayMain geom33Center).width
         (specBounds cfgDefault displayMain geom33Center).height,
       ActCall.windowmove "w1" (specBounds cfgDefault displayMain geom33Center).left
         (specBounds cfgDefault displayMain geom33Center).top] ∧
    specBounds cfgDefault displayMain geom33Center = ⟨660, 30, 600, 1020⟩ :=
  ⟨by decide, by decide, by decide, by decide, by decide,
    C3_bounds_floor_form cfgDefault envScenario Layouts.COL_33_CENTER "w1" []
      geom33Center displayMain (by decide) (by decide) (by decide) (by decide) (by decide),
    by decide⟩

/-- C4 counterexample: with one display connected but the window position
undeterminable, `get_display_for_window` returns `none` (line 349-350 of
the source), not the first enumerated display as the claim states. -/
theorem C4_counterexample :
    get_display_for_window envNoPos "w1" = none ∧
    envNoPos.displays = [displayMain] := ⟨rfl, rfl⟩

/-- C4 (amended): display lookup returns `none` exactly when the window's
position could not be determined or zero displays are reported; when the
position is determined but no display contains it, it falls back to the
first enumerated display. -/
theorem C4_display_fallback (env : Env) (window_id : String) :
    (get_display_for_window env window_id = none ↔
      get_window_position env window_id = none ∨ env.displays = []) ∧
    (∀ left top : Int, get_window_position env window_id = some (left, top) →
      displayContaining env.displays left top = none →
      get_display_for_window env window_id = env.displays.head?) := by
  constructor
  · cases hp : get_window_position env window_id with
    | none => simp [get_display_for_window, hp]
    | some p =>
      obtain ⟨l, t⟩ := p
      cases hc : displayContaining env.displays l t with
      | none =>
        simp [get_display_for_window, hp, hc, List.head?_eq_none_iff]
      | some d0 =>
        have hne := display_containing_ne_nil hc
        simp [get_display_for_window, hp, hc, hne]
  · intro l t hp hc
    simp [get_display_for_window, hp, hc]

theorem C4_display_fallback_witness :
    (get_window_position envNoPos "w1" = none ∨ envNoPos.displays = []) ∧
    get_display_for_window envNoPos "w1" = none :=
  ⟨Or.inl rfl, (C4_display_fallback envNoPos "w1").1.mpr (Or.inl rfl)⟩

/-- C5: applying a fractional layout with zero displays reported records
the layout's canonical index in the window state, reports the
display-not-found outcome, and issues no geometry actuator call. -/
theorem C5_state_recorded_on_no_display (cfg : Config) (env : Env)
    (layout window_id : String) (st : WState) (geom : Geometry)
    (hw : window_id ≠ "") (hg : geometryOf layout = some geom)
    (hd : env.displays = []) :
    (apply_layout cfg env layout window_id st).outcome = ApplyOutcome.displayNotFound ∧
    (apply_layout cfg env layout window_id st).calls = [] ∧
    stateGet (apply_layout cfg env layout window_id st).state window_id =
      some (canonicalIndex layout) := by
  obtain ⟨hFS, hMAX⟩ := geometryOf_ne_special hg
  have hdn := display_for_window_none_of_nil env window_id hd
  refine ⟨?_, ?_, apply_layout_stateGet cfg env layout window_id st hw⟩ <;>
    simp only [apply_layout, if_neg hw, if_neg hFS, if_neg hMAX, hdn]

theorem C5_state_recorded_on_no_display_witness :
    ("w1" : String) ≠ "" ∧
    geometryOf Layouts.COL_50_LEFT = some geom50Left ∧
    envNoDisplays.displays = [] ∧
    (apply_layout cfgDefault envNoDisplays Layouts.COL_50_LEFT "w1" []).outcome =
      ApplyOutcome.displayNotFound ∧
    (apply_layout cfgDefault envNoDisplays Layouts.COL_50_LEFT "w1" []).calls = [] ∧
    stateGet (apply_layout cfgDefault envNoDisplays Layouts.COL_50_LEFT "w1" []).state "w1" =
      some (canonicalIndex Layouts.COL_50_LEFT) := by
  refine ⟨by decide, by decide, rfl, ?_⟩
  exact C5_state_recorded_on_no_display cfgDefault envNoDisplays Layouts.COL_50_LEFT
    "w1" [] geom50Left (by decide) (by decide) rfl

/-- C6: applying any layout with an empty window identifier is a complete
no-op: the state is returned unchanged and no actuator call is made. -/
theorem C6_empty_window_noop (cfg : Config) (env : Env) (layout : String) (st : WState) :
    apply_layout cfg env layout "" st = ⟨st, [], ApplyOutcome.noWindowId⟩ := by
  unfold apply_layout
  rw [if_pos rfl]

/-- C7: display containment lookup returns the first display in
enumeration order whose rectangle contains the point under the half-open
test, and on two side-by-side 1920x1080 displays the boundary point
(1920, 0) resolves to the second display. -/
theorem C7_first_containing_display :
    (∀ (ds : List Display) (left top : Int) (d : Display),
        displayContaining ds left top = some d ↔
          containsPoint d left top = true ∧
          ∃ pre post, ds = pre ++ d :: post ∧
            ∀ d' ∈ pre, containsPoint d' left top = false) ∧
    displayContaining [displayMain, displayRightOf] 1920 0 = some displayRightOf := by
  constructor
  · intro ds l t d
    unfold displayContaining
    rw [List.find?_eq_some]
    simp [Bool.not_eq_true']
  · decide

theorem C7_first_containing_display_witness :
    displayContaining [displayMain, displayRightOf] 1920 0 = some displayRightOf ∧
    (containsPoint displayRightOf 1920 0 = true ∧
      ∃ pre post, [displayMain, displayRightOf] = pre ++ displayRightOf :: post ∧
        ∀ d' ∈ pre, containsPoint d' 1920 0 = false) :=
  ⟨C7_first_containing_display.2,
    (C7_first_containing_display.1 [displayMain, displayRightOf] 1920 0
      displayRightOf).mp C7_first_containing_display.2⟩

/-- C8: a window with no recorded state entry is treated as `Maximized`,
and since no explicit rule is keyed (Maximized, left), resolving
direction left for it returns "50% Left". -/
theorem C8_unrecorded_defaults_maximized (st : WState) (window_id : String)
    (h : stateGet st window_id = none) :
    currentLayoutName st window_id = Layouts.MAXIMIZED ∧
    resolveWindow st window_id Direction.left = Layouts.COL_50_LEFT := by
  have hc : currentLayoutName st window_id = Layouts.MAXIMIZED := by
    unfold currentLayoutName
    rw [h]
    decide
  refine ⟨hc, ?_⟩
  unfold resolveWindow
  rw [hc]
  decide

theorem C8_unrecorded_defaults_maximized_witness :
    stateGet [] "w1" = none ∧
    currentLayoutName [] "w1" = Layouts.MAXIMIZED ∧
    resolveWindow [] "w1" Direction.left = Layouts.COL_50_LEFT :=
  ⟨rfl, (C8_unrecorded_defaults_maximized [] "w1" rfl).1,
    (C8_unrecorded_defaults_maximized [] "w1" rfl).2⟩

/-- C9: for every catalog layout and every direction, transitioning twice
with the same direction lands on that direction's default half: the target
of any explicit rule and every default half has no explicit rule for the
same direction again. -/
theorem C9_double_press_default :
    ∀ L ∈ LAYOUT_SEQUENCE, ∀ d : Direction,
      resolve (resolve L d) d = DEFAULT_TRANSITIONS d := by decide

theorem C9_double_press_default_witness :
    Layouts.COL_33_LEFT ∈ LAYOUT_SEQUENCE ∧
    resolve (resolve Layouts.COL_33_LEFT Direction.up) Direction.up =
      DEFAULT_TRANSITIONS Direction.up :=
  ⟨by decide, C9_double_press_default Layouts.COL_33_LEFT (by decide) Direction.up⟩

theorem modify_layout_state_mem_eightSet (cfg : Config) (env : Env) (d : Direction)
    (st : WState) (w : String) (ha : env.active_window = some w) (hw : w ≠ "") :
    currentLayoutName (modify_layout cfg env d st).state w ∈ eightSet := by
  unfold modify_layout
  rw [ha]
  have h1 := apply_layout_stateGet cfg env (resolveWindow st w d) w st hw
  have h2 : resolveWindow st w d ∈ eightSet := resolve_mem_eightSet _ d
  unfold currentLayoutName
  rw [h1, Option.getD_some, eightSet_canonical _ h2]
  exact h2

/-- C10: every resolved layout is one of the eight half/corner layouts,
and after any non-empty sequence of directional snaps (with no manual
layout application) the window's recorded state denotes one of them. -/
theorem C10_snap_image_eightSet :
    (∀ (L : String) (d : Direction), resolve L d ∈ eightSet) ∧
    (∀ (cfg : Config) (env : Env) (w : String),
      env.active_window = some w → w ≠ "" →
      ∀ (st : WState) (d : Direction) (ds : List Direction),
        currentLayoutName
          ((d :: ds).foldl (fun s d' => (modify_layout cfg env d' s).state) st) w
          ∈ eightSet) := by
  refine ⟨resolve_mem_eightSet, ?_⟩
  intro cfg env w ha hw st d ds
  have aux : ∀ (ds' : List Direction) (st' : WState),
      currentLayoutName st' w ∈ eightSet →
      currentLayoutName
        (ds'.foldl (fun s d' => (modify_layout cfg env d' s).state) st') w ∈ eightSet := by
    intro ds'
    induction ds' with
    | nil => intro st' h; exact h
    | cons d' tl ih =>
      intro st' _
      exact ih (modify_layout cfg env d' st').state
        (modify_layout_state_mem_eightSet cfg env d' st' w ha hw)
  exact aux ds (modify_layout cfg env d st).state
    (modify_layout_state_mem_eightSet cfg env d st w ha hw)

theorem C10_snap_image_eightSet_witness :
    envNoDisplays.active_window = some "w1" ∧ ("w1" : String) ≠ "" ∧
    currentLayoutName
      ([Direction.left].foldl
        (fun s d' => (modify_layout cfgDefault envNoDisplays d' s).state) []) "w1"
      ∈ eightSet :=
  ⟨rfl, by decide,
    C10_snap_image_eightSet.2 cfgDefault envNoDisplays "w1" rfl (by decide)
      [] Direction.left []⟩

end Xlap
